import Mathlib

/-!
Shallow embedding of the MemGPT MCP server (src/src/index.ts).

The server is a single class `LettaMemGPTServer` holding in-process session
state (current provider string, a per-provider current-model object, API keys
read from the environment), a SQLite store (a `memory` table of exchanges and
a `settings` key/value table), and an external mirror file
(`cline_mcp_settings.json`) that is read at startup and best-effort rewritten
on provider/model switches.

The embedding models:
  * the in-process state plus both persistence surfaces as `ServerState`;
  * the outcomes of the effectful calls a handler performs (HTTP requests,
    SQLite statement success/failure, mirror-file write success/failure,
    the store clock) as an oracle `World`;
  * each tool handler as a pure function from state, world and arguments to
    a new state and an `Except McpError` result, translated line by line
    from the TypeScript.

JavaScript truthiness of the argument checks (`if (!args.x)`) is modelled by
treating both an absent argument and the empty string as missing.
-/

namespace MemGPT

/-- Decidable equality for `Except`, needed so that concrete runs of the
handlers can be checked by `decide`. -/
instance exceptDecEq {ε α : Type} [DecidableEq ε] [DecidableEq α] :
    DecidableEq (Except ε α) := fun a b =>
  match a, b with
  | .ok x, .ok y =>
    if h : x = y then .isTrue (by rw [h]) else .isFalse (fun he => by cases he; exact h rfl)
  | .error x, .error y =>
    if h : x = y then .isTrue (by rw [h]) else .isFalse (fun he => by cases he; exact h rfl)
  | .ok _, .error _ => .isFalse (fun he => by cases he)
  | .error _, .ok _ => .isFalse (fun he => by cases he)

/-- One row of the `memory` table (interface `Memory` in the source).
`id` is the AUTOINCREMENT primary key, `timestamp` the store-local
CURRENT_TIMESTAMP at insert, modelled as a natural number. -/
structure MemoryRow where
  id : Nat
  userId : String
  prompt : String
  response : String
  timestamp : Nat
  provider : String
deriving Repr, DecidableEq

/-- The `mcpServers['letta-memgpt']` entry of the external mirror file:
an optional `defaultProvider` string and an optional `models` map. -/
structure MirrorEntry where
  defaultProvider : Option String
  models : Option (List (String × String))
deriving Repr, DecidableEq

/-- The parsed external mirror document. `entry = none` covers both a missing
`mcpServers['letta-memgpt']` key and a missing `mcpServers` object: in either
case the handlers neither adopt nor write anything (the latter raises a
TypeError that the surrounding try/catch swallows, with the same outcome). -/
structure MirrorDoc where
  entry : Option MirrorEntry
deriving Repr, DecidableEq

/-- Full system state: in-process fields of `LettaMemGPTServer`, the SQLite
tables, and the external mirror file. `mirrorFile = .error msg` means reading
or parsing the file fails with message `msg`; `settingsRow` is the value of
the `settings` row keyed `current_provider` (absent when `none`).
`nextId` models the AUTOINCREMENT counter of the `memory` table. -/
structure ServerState where
  openaiKey : String
  anthropicKey : String
  openrouterKey : String
  currentProvider : String
  openaiModel : String
  openrouterModel : String
  anthropicModel : String
  ollamaModel : String
  memory : List MemoryRow
  nextId : Nat
  settingsRow : Option String
  mirrorFile : Except String MirrorDoc
deriving Repr, DecidableEq

/-- Oracle for the effectful calls a single handler invocation performs.
`httpPost` is the outcome of the one cloud-provider POST (the extracted reply
text, or the error message of a failed request / malformed body);
`ollamaTags` is the model list of `GET /api/tags` (`none` = connection
refused, ECONNREFUSED); `ollamaGen` the outcome of `POST /api/generate`
(`.ok none` = body without a `response` field); `appendErr` / `updateErr` are
the SQLite INSERT-into-memory / UPDATE-settings errors (`none` = success);
`writeMirrorErr` the `fs.writeFile` error for the mirror; `now` the store
clock used for CURRENT_TIMESTAMP. -/
structure World where
  httpPost : Except String String
  ollamaTags : Option (List String)
  ollamaGen : Except String (Option String)
  appendErr : Option String
  updateErr : Option String
  writeMirrorErr : Option String
  now : Nat
deriving Repr, DecidableEq

/-- MCP protocol error codes used by the server. -/
inductive ErrorCode where
  | InvalidParams
  | InternalError
  | MethodNotFound
deriving Repr, DecidableEq

/-- A protocol-level error (`McpError` of the MCP SDK). -/
structure McpError where
  code : ErrorCode
  message : String
deriving Repr, DecidableEq

/-- `validProviders` of `handleUseProvider`. -/
def validProviders : List String := ["openai", "anthropic", "openrouter", "ollama"]

/-- `openaiModels` of `handleUseModel`. -/
def openaiModels : List String := ["gpt-4o", "gpt-4o-mini", "gpt-4-turbo"]

/-- `anthropicModels` of `handleUseModel`. -/
def anthropicModels : List String :=
  ["claude-3-haiku", "claude-3-sonnet", "claude-3-opus", "claude-3.5-haiku",
   "claude-3.5-sonnet"]

/-- The compiled-in per-provider model defaults (`currentModel` initializer). -/
def defaultOpenaiModel : String := "gpt-3.5-turbo"

def defaultOpenrouterModel : String := "openai/gpt-3.5-turbo"

def defaultAnthropicModel : String := "claude-2"

def defaultOllamaModel : String := "llama3.3:latest"

/-- `this.currentModel[p] = m` (only reachable for the four providers). -/
def setCurrentModel (s : ServerState) (p m : String) : ServerState :=
  if p = "openai" then { s with openaiModel := m }
  else if p = "openrouter" then { s with openrouterModel := m }
  else if p = "anthropic" then { s with anthropicModel := m }
  else if p = "ollama" then { s with ollamaModel := m }
  else s

/-- Read `this.currentModel[p]`. -/
def currentModelOf (s : ServerState) (p : String) : String :=
  if p = "openai" then s.openaiModel
  else if p = "openrouter" then s.openrouterModel
  else if p = "anthropic" then s.anthropicModel
  else if p = "ollama" then s.ollamaModel
  else ""

/-- `settings.mcpServers['letta-memgpt'].models[p] = m` on the mirror's map. -/
def upsertModel (l : List (String × String)) (p m : String) : List (String × String) :=
  match l with
  | [] => [(p, m)]
  | (k, v) :: rest => if k = p then (k, m) :: rest else (k, v) :: upsertModel rest p m

/-- `readSettingsFile`: read and parse the mirror; when it has a truthy
`defaultProvider` for this server, adopt it; all failures are caught and
logged, leaving the state unchanged. No validation is applied. -/
def readSettingsFile (s : ServerState) : ServerState :=
  match s.mirrorFile with
  | .error _ => s
  | .ok doc =>
    match doc.entry with
    | none => s
    | some e =>
      match e.defaultProvider with
      | none => s
      | some p => if p = "" then s else { s with currentProvider := p }

/-- `initializeDatabase`: first `readSettingsFile`, then (after the idempotent
CREATE TABLEs) read the `current_provider` settings row; when the row exists
its value overwrites `currentProvider`; when absent, the current in-memory
value is inserted as the row. The database error paths (rejected promises)
are not needed by any claim and are not modelled. -/
def initializeDatabase (s0 : ServerState) : ServerState :=
  let s := readSettingsFile s0
  match s.settingsRow with
  | some v => { s with currentProvider := v }
  | none => { s with settingsRow := some s.currentProvider }

/-- A freshly constructed server before `initializeDatabase`: in-memory fields
at their compiled-in initializers, keys from the environment, and the durable
surfaces (memory table, AUTOINCREMENT counter, settings row, mirror file) as
left behind by the previous process. -/
def freshState (k1 k2 k3 : String) (mem : List MemoryRow) (nid : Nat)
    (row : Option String) (mirror : Except String MirrorDoc) : ServerState :=
  { openaiKey := k1, anthropicKey := k2, openrouterKey := k3,
    currentProvider := "openai",
    openaiModel := defaultOpenaiModel, openrouterModel := defaultOpenrouterModel,
    anthropicModel := defaultAnthropicModel, ollamaModel := defaultOllamaModel,
    memory := mem, nextId := nid, settingsRow := row, mirrorFile := mirror }

/-- `updateSettingsFile(provider)`: read the mirror, and when the server's
entry exists set its `defaultProvider` and write the file back. Every
failure (read, parse, write) is caught and only logged; the state other than
the mirror file is never touched. -/
def updateSettingsFile (s : ServerState) (w : World) (p : String) : ServerState :=
  match s.mirrorFile with
  | .error _ => s
  | .ok doc =>
    match doc.entry with
    | none => s
    | some entry =>
      match w.writeMirrorErr with
      | some _ => s
      | none => { s with mirrorFile := .ok ⟨some { entry with defaultProvider := some p }⟩ }

/-- `handleUseProvider`: validate the argument, then update the in-memory
provider, the settings row (SQL UPDATE: only an existing row is changed) and
best-effort the mirror. A SQLite UPDATE failure is an uncaught rejection,
surfaced by the SDK as an internal protocol error. -/
def handleUseProvider (s : ServerState) (w : World) (provider? : Option String) :
    ServerState × Except McpError String :=
  match provider? with
  | none => (s, .error ⟨.InvalidParams, "Missing required parameter: provider"⟩)
  | some p =>
    if p = "" then (s, .error ⟨.InvalidParams, "Missing required parameter: provider"⟩)
    else if p ∈ validProviders then
      let s1 := { s with currentProvider := p }
      match w.updateErr with
      | some e => (s1, .error ⟨.InternalError, e⟩)
      | none =>
        let s2 := { s1 with settingsRow := s1.settingsRow.map (fun _ => p) }
        (updateSettingsFile s2 w p,
         .ok ("Now using " ++ p ++ " as the LLM provider (saved to settings)"))
    else
      (s, .error ⟨.InvalidParams,
        "Invalid provider. Must be one of: " ++ String.intercalate ", " validProviders⟩)

/-- The model-validation switch of `handleUseModel`, returning the thrown
`Error` message on rejection. The Ollama arm's tags request is modelled by
its outcome: `none` is a connection-refused failure, `some ms` a successful
listing (with `response.data.models || []` already applied). -/
def validateModel (s : ServerState) (w : World) (m : String) : Except String Unit :=
  if s.currentProvider = "openai" then
    if m ∈ openaiModels then .ok ()
    else .error ("Invalid OpenAI model. Available models: " ++
      String.intercalate ", " openaiModels)
  else if s.currentProvider = "openrouter" then
    if m.contains '/' then .ok ()
    else .error "OpenRouter model must be in format: provider/model (e.g., openai/gpt-4, anthropic/claude-2)"
  else if s.currentProvider = "ollama" then
    match w.ollamaTags with
    | none => .error "Ollama is not running. Please start Ollama first (https://ollama.ai)"
    | some ms =>
      if m ∈ ms then .ok ()
      else .error ("Model " ++ m ++ " not found. Available models: " ++
        String.intercalate ", " ms)
  else if s.currentProvider = "anthropic" then
    if m ∈ anthropicModels then .ok ()
    else .error ("Invalid Anthropic model. Available models: " ++
      String.intercalate ", " anthropicModels)
  else .error ("Cannot set model for provider: " ++ s.currentProvider)

/-- `handleUseModel`: check the argument, validate against the current
provider, assign `this.currentModel[this.currentProvider]`, then read the
mirror and (when the server entry exists) write the model under the
provider's key. The whole body sits in one try/catch whose handler throws
`McpError(InternalError, error.message || 'Failed to set model')`, so
validation failures AND mirror read/write failures all surface with that
code, the latter after the in-memory model has already been updated. -/
def handleUseModel (s : ServerState) (w : World) (model? : Option String) :
    ServerState × Except McpError String :=
  match model? with
  | none => (s, .error ⟨.InvalidParams, "Missing required parameter: model"⟩)
  | some m =>
    if m = "" then (s, .error ⟨.InvalidParams, "Missing required parameter: model"⟩)
    else
      match validateModel s w m with
      | .error e =>
        (s, .error ⟨.InternalError, if e = "" then "Failed to set model" else e⟩)
      | .ok _ =>
        let s1 := setCurrentModel s s.currentProvider m
        match s1.mirrorFile with
        | .error e =>
          (s1, .error ⟨.InternalError, if e = "" then "Failed to set model" else e⟩)
        | .ok doc =>
          match doc.entry with
          | none => (s1, .ok ("Now using " ++ m ++ " with " ++ s.currentProvider))
          | some entry =>
            match w.writeMirrorErr with
            | some e =>
              (s1, .error ⟨.InternalError, if e = "" then "Failed to set model" else e⟩)
            | none =>
              let entry1 := { entry with
                models := some (upsertModel (entry.models.getD []) s.currentProvider m) }
              ({ s1 with mirrorFile := .ok ⟨some entry1⟩ },
               .ok ("Now using " ++ m ++ " with " ++ s.currentProvider))

/-- `queryOpenAI`: with no key configured, throw before any network call;
otherwise one POST whose extracted text (or failure) is the oracle's
`httpPost`. The second component counts network requests issued. -/
def queryOpenAI (s : ServerState) (w : World) : Except String String × Nat :=
  if s.openaiKey = "" then (.error "OpenAI API key not configured", 0)
  else (w.httpPost, 1)

/-- `queryAnthropic`, same shape as `queryOpenAI`. -/
def queryAnthropic (s : ServerState) (w : World) : Except String String × Nat :=
  if s.anthropicKey = "" then (.error "Anthropic API key not configured", 0)
  else (w.httpPost, 1)

/-- `queryOpenRouter`, same shape as `queryOpenAI`. -/
def queryOpenRouter (s : ServerState) (w : World) : Except String String × Nat :=
  if s.openrouterKey = "" then (.error "OpenRouter API key not configured", 0)
  else (w.httpPost, 1)

/-- `queryOllama`: list the live models (connection refused gives the
directive hint), require the current model to be present, then POST the
generation request with streaming disabled and extract `data.response`.
Every failure is rewrapped as `Ollama error: ...`. -/
def queryOllama (s : ServerState) (w : World) : Except String String × Nat :=
  match w.ollamaTags with
  | none =>
    (.error "Ollama error: Ollama is not running. Please start Ollama first (https://ollama.ai)", 1)
  | some ms =>
    if s.ollamaModel ∈ ms then
      match w.ollamaGen with
      | .ok (some r) => (.ok r, 2)
      | .ok none => (.error "Ollama error: No response received from Ollama", 2)
      | .error e => (.error ("Ollama error: " ++ e), 2)
    else
      (.error ("Ollama error: Model " ++ s.ollamaModel ++ " not found. Available models: " ++
        String.intercalate ", " ms), 1)

/-- The provider switch of `handleChat`. The default arm throws
`McpError(InvalidParams, 'Unsupported provider: undefined')` inside the try
block; the string below is that error's `message` as rendered by the SDK's
`Error` subclass, which the catch then rewraps. -/
def queryDispatch (s : ServerState) (w : World) : Except String String × Nat :=
  if s.currentProvider = "openai" then queryOpenAI s w
  else if s.currentProvider = "anthropic" then queryAnthropic s w
  else if s.currentProvider = "openrouter" then queryOpenRouter s w
  else if s.currentProvider = "ollama" then queryOllama s w
  else (.error "MCP error -32602: Unsupported provider: undefined", 0)

/-- The row `storeMemory` inserts for a chat turn: next AUTOINCREMENT id, the
constant user tag, the prompt, the reply, the store clock, and the provider
that produced it. -/
def mkExchange (s : ServerState) (w : World) (msg resp : String) : MemoryRow :=
  ⟨s.nextId, "default_user", msg, resp, w.now, s.currentProvider⟩

/-- Result of one `handleChat` invocation: the post state, the protocol
result, and how many network requests were issued. -/
structure ChatOutcome where
  state : ServerState
  result : Except McpError String
  networkCalls : Nat
deriving Repr, DecidableEq

/-- `handleChat`: check the argument (outside the try, so InvalidParams
propagates unwrapped), dispatch to the provider's query, then `storeMemory`
before returning the reply. Any throw inside the try — backend failure or
INSERT failure — is rewrapped as
`Error querying ${args.provider}: ${error?.message || 'Unknown error'}`,
where `args.provider` is undefined for the chat tool. -/
def handleChat (s : ServerState) (w : World) (message? : Option String) : ChatOutcome :=
  match message? with
  | none => ⟨s, .error ⟨.InvalidParams, "Missing required parameter: message"⟩, 0⟩
  | some msg =>
    if msg = "" then
      ⟨s, .error ⟨.InvalidParams, "Missing required parameter: message"⟩, 0⟩
    else
      match queryDispatch s w with
      | (.error e, n) =>
        ⟨s, .error ⟨.InternalError,
          "Error querying undefined: " ++ (if e = "" then "Unknown error" else e)⟩, n⟩
      | (.ok resp, n) =>
        match w.appendErr with
        | some dbErr =>
          ⟨s, .error ⟨.InternalError,
            "Error querying undefined: " ++ (if dbErr = "" then "Unknown error" else dbErr)⟩, n⟩
        | none =>
          let s1 := { s with memory := s.memory ++ [mkExchange s w msg resp],
                             nextId := s.nextId + 1 }
          ⟨s1, .ok resp, n⟩

/-- Stable insert for `ORDER BY timestamp DESC`: `x` is placed after every
earlier row with a strictly greater timestamp, so rows with equal timestamps
keep their relative table order. -/
def insertDesc (x : MemoryRow) : List MemoryRow → List MemoryRow
  | [] => [x]
  | y :: ys => if x.timestamp < y.timestamp then y :: insertDesc x ys else x :: y :: ys

/-- `SELECT * FROM memory ORDER BY timestamp DESC` as a stable sort of the
table (in insertion order) by descending timestamp. The query names no
secondary sort key; SQLite leaves the order of equal timestamps unspecified,
modelled here as table order. -/
def sortByTimestampDesc : List MemoryRow → List MemoryRow
  | [] => []
  | x :: xs => insertDesc x (sortByTimestampDesc xs)

/-- JavaScript `x || d` on an optional number: `undefined` and `0` are falsy. -/
def jsNumOr (x : Option Int) (d : Int) : Int :=
  match x with
  | none => d
  | some v => if v = 0 then d else v

/-- SQLite `LIMIT n`: a negative bound means no limit. -/
def sqliteLimit (n : Int) (l : List MemoryRow) : List MemoryRow :=
  if n < 0 then l else l.take n.toNat

/-- `handleGetMemory`: `args.limit === null` selects the unlimited query;
otherwise the limit parameter is `args.limit || 10`. The argument is
`none` when omitted, `some none` for JSON null, `some (some v)` for a
number. Returns the rows serialized into the reply. -/
def handleGetMemory (s : ServerState) (limit? : Option (Option Int)) : List MemoryRow :=
  match limit? with
  | some none => sortByTimestampDesc s.memory
  | some (some v) => sqliteLimit (jsNumOr (some v) 10) (sortByTimestampDesc s.memory)
  | none => sqliteLimit (jsNumOr none 10) (sortByTimestampDesc s.memory)

/-- `handleClearMemory`: `DELETE FROM memory` (the AUTOINCREMENT counter is
not reset), then a fixed confirmation. The DELETE failure path is not needed
by any claim and is not modelled. -/
def handleClearMemory (s : ServerState) : ServerState × Except McpError String :=
  ({ s with memory := [] }, .ok "Memory cleared")

/-- Observer: the provider value the mirror supplies to `readSettingsFile`
(`none` when the file is unreadable, the entry is missing, or the
`defaultProvider` field is absent or falsy). -/
def mirrorProvider (s : ServerState) : Option String :=
  match s.mirrorFile with
  | .error _ => none
  | .ok doc =>
    match doc.entry with
    | none => none
    | some e =>
      match e.defaultProvider with
      | none => none
      | some p => if p = "" then none else some p

/-- Sorting relation of the memory listing: the left row's timestamp is at
least the right row's (descending order). -/
def tsGE (a b : MemoryRow) : Prop := b.timestamp ≤ a.timestamp

/-- A mirror document naming this server with the given `defaultProvider`. -/
def mirrorWithProvider (p : String) : Except String MirrorDoc :=
  .ok ⟨some ⟨some p, none⟩⟩

/-- An oracle in which every effect succeeds. -/
def okWorld : World :=
  ⟨.ok "pong", some ["llama3.3:latest"], .ok (some "gen"), none, none, none, 9⟩

/-- Two stored exchanges with equal timestamps and increasing ids. -/
def rowA : MemoryRow := ⟨1, "default_user", "p1", "r1", 5, "openai"⟩

def rowB : MemoryRow := ⟨2, "default_user", "p2", "r2", 5, "openai"⟩

/-- Startup state whose mirror says `anthropic` while the durable row says
`ollama`. -/
def c1state : ServerState :=
  freshState "" "" "" [] 3 (some "ollama") (mirrorWithProvider "anthropic")

/-- State on provider `openai` whose mirror file is unreadable. -/
def c2state : ServerState :=
  freshState "sk" "" "" [] 1 (some "openai") (.error "EACCES: permission denied")

/-- State holding two equal-timestamp exchanges. -/
def c3state : ServerState :=
  freshState "" "" "" [rowA, rowB] 3 none (.error "ENOENT")

/-- State on provider `openai` with a configured key and empty memory. -/
def c4state : ServerState :=
  freshState "sk" "" "" [] 1 (some "openai") (.error "ENOENT")

/-- Startup state whose mirror names an unregistered provider. -/
def c6state : ServerState :=
  freshState "" "" "" [] 1 none (mirrorWithProvider "chatgpt")

/-- State on provider `openai` with no OpenAI key configured. -/
def c7state : ServerState :=
  freshState "" "ak" "rk" [] 1 (some "openai") (.error "ENOENT")

/-! Helper lemmas shared by the claim theorems. -/

theorem string_append_ne_empty (a b : String) (ha : a ≠ "") : a ++ b ≠ "" := by
  intro hc
  apply ha
  have hd := congrArg String.data hc
  rw [String.data_append] at hd
  exact String.ext (List.append_eq_nil.1 hd).1

theorem mem_validProviders_ne_empty (p : String) (hp : p ∈ validProviders) : p ≠ "" := by
  simp only [validProviders, List.mem_cons, List.not_mem_nil, or_false] at hp
  rcases hp with rfl | rfl | rfl | rfl <;> decide

theorem mem_insertDesc (x a : MemoryRow) (l : List MemoryRow) :
    a ∈ insertDesc x l ↔ a = x ∨ a ∈ l := by
  induction l with
  | nil => simp [insertDesc]
  | cons y ys ih =>
    unfold insertDesc
    by_cases h : x.timestamp < y.timestamp
    · rw [if_pos h]
      simp only [List.mem_cons, ih]
      tauto
    · rw [if_neg h]
      simp only [List.mem_cons]

theorem pairwise_insertDesc (x : MemoryRow) (l : List MemoryRow)
    (h : l.Pairwise tsGE) : (insertDesc x l).Pairwise tsGE := by
  induction l with
  | nil => simp [insertDesc]
  | cons y ys ih =>
    rw [List.pairwise_cons] at h
    obtain ⟨hy, hys⟩ := h
    unfold insertDesc
    by_cases hlt : x.timestamp < y.timestamp
    · rw [if_pos hlt, List.pairwise_cons]
      refine ⟨?_, ih hys⟩
      intro a ha
      rcases (mem_insertDesc x a ys).1 ha with rfl | hmem
      · exact Nat.le_of_lt hlt
      · exact hy a hmem
    · have hyx : y.timestamp ≤ x.timestamp := Nat.le_of_not_lt hlt
      rw [if_neg hlt, List.pairwise_cons]
      refine ⟨?_, List.pairwise_cons.2 ⟨hy, hys⟩⟩
      intro a ha
      rcases List.mem_cons.1 ha with rfl | hmem
      · exact hyx
      · exact le_trans (hy a hmem) hyx

theorem pairwise_sortByTimestampDesc (l : List MemoryRow) :
    (sortByTimestampDesc l).Pairwise tsGE := by
  induction l with
  | nil => simp [sortByTimestampDesc]
  | cons x xs ih => exact pairwise_insertDesc x _ ih

theorem length_insertDesc (x : MemoryRow) (l : List MemoryRow) :
    (insertDesc x l).length = l.length + 1 := by
  induction l with
  | nil => rfl
  | cons y ys ih =>
    unfold insertDesc
    by_cases h : x.timestamp < y.timestamp
    · rw [if_pos h]
      simp [ih]
    · rw [if_neg h]
      simp

theorem length_sortByTimestampDesc (l : List MemoryRow) :
    (sortByTimestampDesc l).length = l.length := by
  induction l with
  | nil => rfl
  | cons x xs ih =>
    unfold sortByTimestampDesc
    rw [length_insertDesc, ih]
    rfl

theorem readSettingsFile_settingsRow (s : ServerState) :
    (readSettingsFile s).settingsRow = s.settingsRow := by
  unfold readSettingsFile
  repeat' split
  all_goals rfl

theorem readSettingsFile_currentProvider (s : ServerState) :
    (readSettingsFile s).currentProvider =
      (mirrorProvider s).getD s.currentProvider := by
  cases hm : s.mirrorFile with
  | error e => simp [readSettingsFile, mirrorProvider, hm]
  | ok doc =>
    cases he : doc.entry with
    | none => simp [readSettingsFile, mirrorProvider, hm, he]
    | some entry =>
      cases hd : entry.defaultProvider with
      | none => simp [readSettingsFile, mirrorProvider, hm, he, hd]
      | some p =>
        by_cases hp : p = "" <;>
          simp [readSettingsFile, mirrorProvider, hm, he, hd, hp]

theorem updateSettingsFile_currentProvider (s : ServerState) (w : World) (p : String) :
    (updateSettingsFile s w p).currentProvider = s.currentProvider := by
  unfold updateSettingsFile
  repeat' split
  all_goals rfl

theorem updateSettingsFile_settingsRow (s : ServerState) (w : World) (p : String) :
    (updateSettingsFile s w p).settingsRow = s.settingsRow := by
  unfold updateSettingsFile
  repeat' split
  all_goals rfl

theorem setCurrentModel_currentProvider (s : ServerState) (p m : String) :
    (setCurrentModel s p m).currentProvider = s.currentProvider := by
  unfold setCurrentModel
  repeat' split
  all_goals rfl

theorem setCurrentModel_mirrorFile (s : ServerState) (p m : String) :
    (setCurrentModel s p m).mirrorFile = s.mirrorFile := by
  unfold setCurrentModel
  repeat' split
  all_goals rfl

theorem currentModelOf_setCurrentModel (s : ServerState) (m p : String)
    (hp : p ∈ validProviders) :
    currentModelOf (setCurrentModel s p m) p = m := by
  simp only [validProviders, List.mem_cons, List.not_mem_nil, or_false] at hp
  rcases hp with rfl | rfl | rfl | rfl <;> rfl

theorem validateModel_ok_provider (s : ServerState) (w : World) (m : String)
    (h : validateModel s w m = .ok ()) :
    s.currentProvider ∈ validProviders := by
  unfold validateModel at h
  by_cases h1 : s.currentProvider = "openai"
  · simp [validProviders, h1]
  · rw [if_neg h1] at h
    by_cases h2 : s.currentProvider = "openrouter"
    · simp [validProviders, h2]
    · rw [if_neg h2] at h
      by_cases h3 : s.currentProvider = "ollama"
      · simp [validProviders, h3]
      · rw [if_neg h3] at h
        by_cases h4 : s.currentProvider = "anthropic"
        · simp [validProviders, h4]
        · rw [if_neg h4] at h
          cases h

theorem handleUseModel_currentProvider (s : ServerState) (w : World)
    (m? : Option String) :
    (handleUseModel s w m?).1.currentProvider = s.currentProvider := by
  unfold handleUseModel
  cases m? with
  | none => rfl
  | some m =>
    dsimp only
    split
    · rfl
    · split
      · rfl
      · have hs1 := setCurrentModel_currentProvider s s.currentProvider m
        repeat' split
        all_goals simpa using hs1

theorem handleChat_currentProvider (s : ServerState) (w : World)
    (msg? : Option String) :
    (handleChat s w msg?).state.currentProvider = s.currentProvider := by
  unfold handleChat
  cases msg? with
  | none => rfl
  | some msg =>
    dsimp only
    repeat' split
    all_goals rfl

/-! Claim theorems. -/

/-- C8: `use_provider` with an identifier outside the four registered
providers fails with an invalid-params `McpError` and leaves the state —
in-memory provider, durable settings row and external mirror — entirely
unchanged. -/
theorem c8_use_provider_unregistered (s : ServerState) (w : World) (p : String)
    (hnv : p ∉ validProviders) :
    (handleUseProvider s w (some p)).1 = s ∧
    ∃ msg, (handleUseProvider s w (some p)).2 = .error ⟨.InvalidParams, msg⟩ := by
  unfold handleUseProvider
  dsimp only
  by_cases hp : p = ""
  · rw [if_pos hp]
    exact ⟨rfl, _, rfl⟩
  · rw [if_neg hp, if_neg hnv]
    exact ⟨rfl, _, rfl⟩

/-- C8 witness: the concrete unregistered identifier `chatgpt` is rejected
with invalid-params and does not change the state. -/
theorem c8_use_provider_unregistered_witness :
    (handleUseProvider c2state okWorld (some "chatgpt")).1 = c2state ∧
    ∃ msg, (handleUseProvider c2state okWorld (some "chatgpt")).2 =
      .error ⟨.InvalidParams, msg⟩ :=
  c8_use_provider_unregistered c2state okWorld "chatgpt" (by decide)

/-- C9: round-trip across restart. After a successful
`use_provider({provider: "ollama"})` on a state whose settings row exists,
the durable row holds `ollama`; restarting (a fresh state built over that
row, with the mirror unreadable) makes `load()` yield provider `ollama`. -/
theorem c9_round_trip (s : ServerState) (w : World) (v e k1 k2 k3 : String)
    (mem : List MemoryRow) (nid : Nat)
    (hrow : s.settingsRow = some v) (hdb : w.updateErr = none) :
    (handleUseProvider s w (some "ollama")).2 =
      .ok ("Now using " ++ "ollama" ++ " as the LLM provider (saved to settings)") ∧
    (handleUseProvider s w (some "ollama")).1.settingsRow = some "ollama" ∧
    (initializeDatabase (freshState k1 k2 k3 mem nid
      (handleUseProvider s w (some "ollama")).1.settingsRow
      (.error e))).currentProvider = "ollama" := by
  have hrun : handleUseProvider s w (some "ollama") =
      (updateSettingsFile { s with currentProvider := "ollama",
                                   settingsRow := s.settingsRow.map (fun _ => "ollama") }
        w "ollama",
       .ok ("Now using " ++ "ollama" ++ " as the LLM provider (saved to settings)")) := by
    unfold handleUseProvider
    dsimp only
    rw [if_neg (by decide : ¬ ("ollama" : String) = ""),
        if_pos (by decide : ("ollama" : String) ∈ validProviders), hdb]
  rw [hrun]
  refine ⟨rfl, ?_, ?_⟩
  · rw [updateSettingsFile_settingsRow]
    simp [hrow]
  · rw [updateSettingsFile_settingsRow]
    simp only [hrow, Option.map_some]
    rfl

/-- C9 witness: concrete round-trip from a state on `openai` whose row
exists, through `use_provider`, a restart with an unreadable mirror, and
`load()`. -/
theorem c9_round_trip_witness :
    (handleUseProvider c2state okWorld (some "ollama")).2 =
      .ok ("Now using " ++ "ollama" ++ " as the LLM provider (saved to settings)") ∧
    (handleUseProvider c2state okWorld (some "ollama")).1.settingsRow = some "ollama" ∧
    (initializeDatabase (freshState "" "" "" [] 1
      (handleUseProvider c2state okWorld (some "ollama")).1.settingsRow
      (.error "ENOENT"))).currentProvider = "ollama" :=
  c9_round_trip c2state okWorld "openai" "ENOENT" "" "" "" [] 1 rfl rfl

/-- C4: when the backend call of `chat` succeeds, exactly one Exchange —
holding the given prompt, the backend's reply and the current provider — is
appended before the reply is returned; when the append fails, the whole
operation fails and no exchange is stored, so no reply is ever delivered
without its exchange record. -/
theorem c4_chat_exchange_invariant (s : ServerState) (w : World)
    (msg resp : String) (n : Nat) (hmsg : msg ≠ "")
    (hq : queryDispatch s w = (.ok resp, n)) :
    mkExchange s w msg resp =
      ⟨s.nextId, "default_user", msg, resp, w.now, s.currentProvider⟩ ∧
    (w.appendErr = none →
      handleChat s w (some msg) =
        { state := { s with memory := s.memory ++ [mkExchange s w msg resp],
                            nextId := s.nextId + 1 },
          result := .ok resp, networkCalls := n }) ∧
    (∀ dbe, w.appendErr = some dbe →
      (handleChat s w (some msg)).state = s ∧
      ∃ em, (handleChat s w (some msg)).result = .error ⟨.InternalError, em⟩) := by
  refine ⟨rfl, ?_, ?_⟩
  · intro ha
    unfold handleChat
    dsimp only
    rw [if_neg hmsg, hq, ha]
  · intro dbe hd
    unfold handleChat
    dsimp only
    rw [if_neg hmsg, hq, hd]
    exact ⟨rfl, _, rfl⟩

/-- C4 witness: concrete successful chat on `openai` appends exactly the
expected exchange and returns the backend reply. -/
theorem c4_chat_exchange_invariant_witness :
    handleChat c4state okWorld (some "hi") =
      { state := { c4state with
                   memory := c4state.memory ++ [mkExchange c4state okWorld "hi" "pong"],
                   nextId := c4state.nextId + 1 },
        result := .ok "pong", networkCalls := 1 } :=
  (c4_chat_exchange_invariant c4state okWorld "hi" "pong" 1 (by decide)
    (by decide)).2.1 rfl

/-- C7: invoking `chat` while the current provider requires a secret that is
not configured fails (with the configuration-error message naming the
provider's key), issues zero network requests, and stores no exchange. -/
theorem c7_chat_missing_secret (s : ServerState) (w : World) (msg : String)
    (hmsg : msg ≠ "") :
    (s.currentProvider = "openai" → s.openaiKey = "" →
      handleChat s w (some msg) =
        ⟨s, .error ⟨.InternalError,
          "Error querying undefined: OpenAI API key not configured"⟩, 0⟩) ∧
    (s.currentProvider = "anthropic" → s.anthropicKey = "" →
      handleChat s w (some msg) =
        ⟨s, .error ⟨.InternalError,
          "Error querying undefined: Anthropic API key not configured"⟩, 0⟩) ∧
    (s.currentProvider = "openrouter" → s.openrouterKey = "" →
      handleChat s w (some msg) =
        ⟨s, .error ⟨.InternalError,
          "Error querying undefined: OpenRouter API key not configured"⟩, 0⟩) := by
  refine ⟨?_, ?_, ?_⟩ <;> intro hp hk <;>
    unfold handleChat queryDispatch queryOpenAI queryAnthropic queryOpenRouter <;>
    dsimp only <;>
    rw [if_neg hmsg, hp] <;>
    simp [hk]

/-- C7 witness: concrete chat on `openai` with no key configured fails
before any network request and leaves the store untouched. -/
theorem c7_chat_missing_secret_witness :
    handleChat c7state okWorld (some "hello") =
      ⟨c7state, .error ⟨.InternalError,
        "Error querying undefined: OpenAI API key not configured"⟩, 0⟩ :=
  (c7_chat_missing_secret c7state okWorld "hello" (by decide)).1 rfl rfl

/-- C1 counterexample: with a readable mirror naming `anthropic` and a
durable row holding `ollama`, `load()` ends on `ollama` — the mirror does
NOT take precedence over the durable row. -/
theorem c1_counterexample :
    mirrorProvider c1state = some "anthropic" ∧
    c1state.settingsRow = some "ollama" ∧
    (initializeDatabase c1state).currentProvider = "ollama" ∧
    (initializeDatabase c1state).currentProvider ≠ "anthropic" := by decide

/-- C1 (amended): `load()` resolves the provider with durable-row-first
precedence: a present `current_provider` row always wins (the mirror value,
read earlier, is overwritten); with no row, the mirror's truthy provider
value is adopted and persisted into the row; with neither, the in-memory
compiled-in value (`openai` on a fresh start) is kept and persisted. -/
theorem c1_load_precedence (s : ServerState) :
    (∀ v, s.settingsRow = some v → (initializeDatabase s).currentProvider = v) ∧
    (∀ p, s.settingsRow = none → mirrorProvider s = some p →
      (initializeDatabase s).currentProvider = p ∧
      (initializeDatabase s).settingsRow = some p) ∧
    (s.settingsRow = none → mirrorProvider s = none →
      (initializeDatabase s).currentProvider = s.currentProvider ∧
      (initializeDatabase s).settingsRow = some s.currentProvider) := by
  have hrow := readSettingsFile_settingsRow s
  have hcp := readSettingsFile_currentProvider s
  refine ⟨?_, ?_, ?_⟩
  · intro v hv
    simp only [initializeDatabase, hrow, hv]
  · intro p hv hm
    rw [hm] at hcp
    simp only [initializeDatabase, hrow, hv, hcp, Option.getD_some]
    exact ⟨trivial, trivial⟩
  · intro hv hm
    rw [hm] at hcp
    simp only [initializeDatabase, hrow, hv, hcp, Option.getD_none]
    exact ⟨trivial, trivial⟩

/-- C1 witness: the durable-row branch at a concrete state. -/
theorem c1_load_precedence_witness :
    (initializeDatabase c1state).currentProvider = "ollama" :=
  (c1_load_precedence c1state).1 "ollama" rfl

/-- C2 counterexample: a `use_model` run whose validation succeeds
(`gpt-4o` on `openai`) but whose mirror file is unreadable reports an
operation failure — mirror failures are not swallowed for `use_model`. -/
theorem c2_counterexample :
    validateModel c2state okWorld "gpt-4o" = .ok () ∧
    (handleUseModel c2state okWorld (some "gpt-4o")).2 =
      .error ⟨.InternalError, "EACCES: permission denied"⟩ := by decide

/-- C2 (amended): only `use_provider` shields the caller from mirror
failures: after its durable-row update it reports success whatever the
mirror's state (read and write failures are caught and only logged). For
`use_model`, a mirror read failure, or a write failure when the server's
entry exists, surfaces as an internal-error operation failure even after
successful validation. -/
theorem c2_mirror_failure_handling (s : ServerState) (w : World) :
    (∀ p, p ∈ validProviders → w.updateErr = none →
      (handleUseProvider s w (some p)).2 =
        .ok ("Now using " ++ p ++ " as the LLM provider (saved to settings)")) ∧
    (∀ m e, m ≠ "" → validateModel s w m = .ok () → s.mirrorFile = .error e →
      (handleUseModel s w (some m)).2 =
        .error ⟨.InternalError, if e = "" then "Failed to set model" else e⟩) ∧
    (∀ m doc entry e, m ≠ "" → validateModel s w m = .ok () →
      s.mirrorFile = .ok doc → doc.entry = some entry → w.writeMirrorErr = some e →
      (handleUseModel s w (some m)).2 =
        .error ⟨.InternalError, if e = "" then "Failed to set model" else e⟩) := by
  refine ⟨?_, ?_, ?_⟩
  · intro p hp hu
    unfold handleUseProvider
    dsimp only
    rw [if_neg (mem_validProviders_ne_empty p hp), if_pos hp, hu]
  · intro m e hm hv he
    unfold handleUseModel
    dsimp only
    rw [if_neg hm, hv]
    dsimp only
    rw [setCurrentModel_mirrorFile, he]
  · intro m doc entry e hm hv hdoc hentry hw
    unfold handleUseModel
    dsimp only
    rw [if_neg hm, hv]
    dsimp only
    rw [setCurrentModel_mirrorFile, hdoc]
    dsimp only
    rw [hentry]
    dsimp only
    rw [hw]

/-- C2 witness: `use_provider` succeeds at a concrete state whose mirror
file is unreadable. -/
theorem c2_mirror_failure_handling_witness :
    (handleUseProvider c2state okWorld (some "ollama")).2 =
      .ok ("Now using " ++ "ollama" ++ " as the LLM provider (saved to settings)") :=
  (c2_mirror_failure_handling c2state okWorld).1 "ollama" (by decide) rfl

/-- C3 counterexample: with one stored pair of equal-timestamp exchanges,
`get_memory` with `limit = 0` returns 2 rows (0 is falsy, so the default 10
applies), and the equal-timestamp rows come back in ascending-identifier
order — both against the claim. -/
theorem c3_counterexample :
    handleGetMemory c3state (some (some 0)) = [rowA, rowB] ∧
    ¬ ((handleGetMemory c3state (some (some 0))).length ≤ 0) ∧
    rowA.timestamp = rowB.timestamp ∧ rowA.id < rowB.id := by decide

/-- C3 (amended): `get_memory` returns every stored exchange when `limit` is
null, at most 10 when it is omitted, and at most `limit` when `limit` is
positive (a `limit` of 0 is treated as omitted by the `||` default, and a
negative `limit` is unbounded in SQLite); the result is ordered by
descending timestamp only — the query has no identifier tie-break, equal
timestamps keeping table order. -/
theorem c3_get_memory_bounds (s : ServerState) :
    (handleGetMemory s (some none)).length = s.memory.length ∧
    (handleGetMemory s none).length ≤ 10 ∧
    (∀ v : Int, 0 < v → ((handleGetMemory s (some (some v))).length : Int) ≤ v) ∧
    (∀ limit?, (handleGetMemory s limit?).Pairwise tsGE) := by
  refine ⟨?_, ?_, ?_, ?_⟩
  · simp [handleGetMemory, length_sortByTimestampDesc]
  · simp only [handleGetMemory, jsNumOr, sqliteLimit]
    rw [if_neg (by decide : ¬ (10 : Int) < 0)]
    simp [List.length_take]
  · intro v hv
    simp only [handleGetMemory, jsNumOr, sqliteLimit]
    rw [if_neg (by omega : ¬ v = 0), if_neg (by omega : ¬ v < 0)]
    have hlen : ((sortByTimestampDesc s.memory).take v.toNat).length ≤ v.toNat := by
      simp [List.length_take]
    omega
  · intro limit?
    have hp := pairwise_sortByTimestampDesc s.memory
    cases limit? with
    | none =>
      simp only [handleGetMemory, jsNumOr, sqliteLimit]
      rw [if_neg (by decide : ¬ (10 : Int) < 0)]
      exact List.Pairwise.sublist (List.take_sublist _ _) hp
    | some o =>
      cases o with
      | none => simpa [handleGetMemory] using hp
      | some v =>
        simp only [handleGetMemory, sqliteLimit]
        split
        · exact hp
        · exact List.Pairwise.sublist (List.take_sublist _ _) hp

/-- C3 witness: the positive-limit bound at a concrete store. -/
theorem c3_get_memory_bounds_witness :
    ((handleGetMemory c3state (some (some 2))).length : Int) ≤ 2 :=
  (c3_get_memory_bounds c3state).2.2.1 2 (by decide)

/-- C5 counterexample: a model outside the compiled OpenAI list is rejected
with the message listing the valid models, but the protocol error code is
`InternalError`, not the claimed invalid-params code. -/
theorem c5_counterexample :
    (handleUseModel c2state okWorld (some "gpt-5")).2 =
      .error ⟨.InternalError,
        "Invalid OpenAI model. Available models: gpt-4o, gpt-4o-mini, gpt-4-turbo"⟩ ∧
    ErrorCode.InternalError ≠ ErrorCode.InvalidParams := by decide

/-- C5 (amended): `use_model` rejects invalid models per the current
provider's rule with the stated messages — compiled-list providers list the
valid models, the aggregator requires a `/` separator, the local-service
provider enumerates the live list — but every such rejection is reported
with the `InternalError` protocol code (the catch-all try/catch in
`handleUseModel`), not as an invalid-params error; only a missing `model`
argument yields invalid-params. -/
theorem c5_use_model_validation (s : ServerState) (w : World) (m : String)
    (hm : m ≠ "") :
    (s.currentProvider = "openai" → m ∉ openaiModels →
      handleUseModel s w (some m) = (s, .error ⟨.InternalError,
        "Invalid OpenAI model. Available models: " ++
          String.intercalate ", " openaiModels⟩)) ∧
    (s.currentProvider = "openrouter" → m.contains (Char.ofNat 47) = false →
      handleUseModel s w (some m) = (s, .error ⟨.InternalError,
        "OpenRouter model must be in format: provider/model (e.g., openai/gpt-4, anthropic/claude-2)"⟩)) ∧
    (∀ ms, s.currentProvider = "ollama" → w.ollamaTags = some ms → m ∉ ms →
      handleUseModel s w (some m) = (s, .error ⟨.InternalError,
        "Model " ++ m ++ " not found. Available models: " ++
          String.intercalate ", " ms⟩)) ∧
    (s.currentProvider = "anthropic" → m ∉ anthropicModels →
      handleUseModel s w (some m) = (s, .error ⟨.InternalError,
        "Invalid Anthropic model. Available models: " ++
          String.intercalate ", " anthropicModels⟩)) ∧
    handleUseModel s w none = (s, .error ⟨.InvalidParams,
      "Missing required parameter: model"⟩) := by
  refine ⟨?_, ?_, ?_, ?_, rfl⟩
  · intro hp hmm
    have hval : validateModel s w m = .error
        ("Invalid OpenAI model. Available models: " ++
          String.intercalate ", " openaiModels) := by
      unfold validateModel
      rw [hp]
      simp [hmm]
    unfold handleUseModel
    dsimp only
    rw [if_neg hm, hval]
    dsimp only
    rw [if_neg (string_append_ne_empty _ _ (by decide))]
  · intro hp hsl
    have hval : validateModel s w m = .error
        "OpenRouter model must be in format: provider/model (e.g., openai/gpt-4, anthropic/claude-2)" := by
      unfold validateModel
      rw [hp]
      simp [hsl]
    unfold handleUseModel
    dsimp only
    rw [if_neg hm, hval]
    dsimp only
    rw [if_neg (by decide :
      ¬ ("OpenRouter model must be in format: provider/model (e.g., openai/gpt-4, anthropic/claude-2)" = ""))]
  · intro ms hp hts hnm
    have hval : validateModel s w m = .error
        ("Model " ++ m ++ " not found. Available models: " ++
          String.intercalate ", " ms) := by
      unfold validateModel
      rw [hp]
      simp [hts, hnm]
    unfold handleUseModel
    dsimp only
    rw [if_neg hm, hval]
    dsimp only
    rw [if_neg (string_append_ne_empty _ _
      (string_append_ne_empty _ _ (string_append_ne_empty _ _ (by decide))))]
  · intro hp hmm
    have hval : validateModel s w m = .error
        ("Invalid Anthropic model. Available models: " ++
          String.intercalate ", " anthropicModels) := by
      unfold validateModel
      rw [hp]
      simp [hmm]
    unfold handleUseModel
    dsimp only
    rw [if_neg hm, hval]
    dsimp only
    rw [if_neg (string_append_ne_empty _ _ (by decide))]

/-- C5 witness: the OpenAI arm at a concrete state and model. -/
theorem c5_use_model_validation_witness :
    handleUseModel c2state okWorld (some "gpt-5") = (c2state, .error ⟨.InternalError,
      "Invalid OpenAI model. Available models: " ++
        String.intercalate ", " openaiModels⟩) :=
  (c5_use_model_validation c2state okWorld "gpt-5" (by decide)).1 rfl (by decide)

/-- C6 counterexample: starting with no durable row and a readable mirror
whose provider value is the unregistered string `chatgpt`, `load()` adopts
it unvalidated — the invariant does not hold for every mirror content. -/
theorem c6_counterexample :
    c6state.currentProvider ∈ validProviders ∧
    mirrorProvider c6state = some "chatgpt" ∧
    (initializeDatabase c6state).currentProvider = "chatgpt" ∧
    "chatgpt" ∉ validProviders := by decide

/-- C6 (amended): membership of the current provider in the four registered
identifiers is preserved by every tool operation (`use_provider` installs
only validated identifiers; the other handlers never change the provider),
but `load()` validates nothing: it preserves the invariant only when the
mirror's provider value and the durable row value are themselves registered
or absent. -/
theorem c6_registered_provider (s : ServerState) (w : World)
    (hs : s.currentProvider ∈ validProviders) :
    (∀ p?, (handleUseProvider s w p?).1.currentProvider ∈ validProviders) ∧
    (∀ m?, (handleUseModel s w m?).1.currentProvider ∈ validProviders) ∧
    (∀ msg?, (handleChat s w msg?).state.currentProvider ∈ validProviders) ∧
    (handleClearMemory s).1.currentProvider ∈ validProviders ∧
    ((∀ v, s.settingsRow = some v → v ∈ validProviders) →
      (∀ p, mirrorProvider s = some p → p ∈ validProviders) →
      (initializeDatabase s).currentProvider ∈ validProviders) := by
  refine ⟨?_, ?_, ?_, hs, ?_⟩
  · intro p?
    cases p? with
    | none => exact hs
    | some p =>
      unfold handleUseProvider
      dsimp only
      by_cases hp : p = ""
      · rw [if_pos hp]
        exact hs
      · rw [if_neg hp]
        by_cases hv : p ∈ validProviders
        · rw [if_pos hv]
          cases hu : w.updateErr with
          | some e => exact hv
          | none =>
            dsimp only
            rw [updateSettingsFile_currentProvider]
            exact hv
        · rw [if_neg hv]
          exact hs
  · intro m?
    rw [handleUseModel_currentProvider]
    exact hs
  · intro msg?
    rw [handleChat_currentProvider]
    exact hs
  · intro hrowOK hmirOK
    have hrow := readSettingsFile_settingsRow s
    have hcp := readSettingsFile_currentProvider s
    cases hv : s.settingsRow with
    | some v =>
      simp only [initializeDatabase, hrow, hv]
      exact hrowOK v hv
    | none =>
      simp only [initializeDatabase, hrow, hv]
      rw [hcp]
      cases hm : mirrorProvider s with
      | some p =>
        rw [Option.getD_some]
        exact hmirOK p hm
      | none =>
        rw [Option.getD_none]
        exact hs

/-- C6 witness: preservation through a rejected `use_provider` call at a
concrete registered state. -/
theorem c6_registered_provider_witness :
    (handleUseProvider c2state okWorld (some "mistral")).1.currentProvider ∈
      validProviders :=
  (c6_registered_provider c2state okWorld (by decide)).1 (some "mistral")

/-- C10: `use_model` is not atomic with respect to its reported failure:
when validation succeeds but the mirror read fails (or the write fails while
the server's entry exists), the operation reports an internal error, yet the
in-memory current model of the current provider has already been set to the
new model. -/
theorem c10_use_model_mutates_before_mirror (s : ServerState) (w : World)
    (m : String) (hm : m ≠ "") (hv : validateModel s w m = .ok ())
    (hfail : (∃ e, s.mirrorFile = .error e) ∨
      (∃ doc entry e, s.mirrorFile = .ok doc ∧ doc.entry = some entry ∧
        w.writeMirrorErr = some e)) :
    (∃ msg, (handleUseModel s w (some m)).2 = .error ⟨.InternalError, msg⟩) ∧
    currentModelOf (handleUseModel s w (some m)).1 s.currentProvider = m := by
  have hmodel := currentModelOf_setCurrentModel s m s.currentProvider
    (validateModel_ok_provider s w m hv)
  unfold handleUseModel
  dsimp only
  rw [if_neg hm, hv]
  dsimp only
  rcases hfail with ⟨e, he⟩ | ⟨doc, entry, e, hdoc, hentry, hw⟩
  · rw [setCurrentModel_mirrorFile, he]
    exact ⟨⟨_, rfl⟩, hmodel⟩
  · rw [setCurrentModel_mirrorFile, hdoc]
    dsimp only
    rw [hentry]
    dsimp only
    rw [hw]
    exact ⟨⟨_, rfl⟩, hmodel⟩

/-- C10 witness: concrete `use_model` run with successful validation, an
unreadable mirror, a reported error, and a mutated in-memory model. -/
theorem c10_use_model_mutates_before_mirror_witness :
    (∃ msg, (handleUseModel c2state okWorld (some "gpt-4o")).2 =
      .error ⟨.InternalError, msg⟩) ∧
    currentModelOf (handleUseModel c2state okWorld (some "gpt-4o")).1
      c2state.currentProvider = "gpt-4o" :=
  c10_use_model_mutates_before_mirror c2state okWorld "gpt-4o" (by decide)
    (by decide) (Or.inl ⟨"EACCES: permission denied", rfl⟩)

end MemGPT
